import Mathlib

/-!
Verification of the product-catalog HTTP service.

The route handlers under verification are the ones defined in
src/tests/test_routes.py of the repository: update_products
(lines 234-254), delete_products (lines 261-274) and the two
list_products definitions (lines 280-289 and 295-324).  The Product
entity, the persistence gateway, the Category enumeration, the
content-type check and the single-product GET handler are not part of
the files under src/, so they are modelled from the specification
(sections 3, 4.1, 4.2, 4.3 and 7 of spec.md); each such definition says
so in its doc comment.
-/

/-- Modelled from the spec: the Category enumeration of product
categories (section 3 of spec.md names UNKNOWN, FOOD and CLOTHS as
members; the exact member set does not affect any claim). -/
inductive Category where
  | UNKNOWN
  | FOOD
  | CLOTHS
deriving DecidableEq, Repr

/-- Modelled from the spec: the name string of an enumeration member,
as emitted by serialization (category emitted as its name string). -/
def Category.catName : Category → String
  | .UNKNOWN => "UNKNOWN"
  | .FOOD => "FOOD"
  | .CLOTHS => "CLOTHS"

/-- Modelled from the spec: the list of all enumeration members. -/
def Category.members : List Category := [.UNKNOWN, .FOOD, .CLOTHS]

/-- Modelled from the spec: dynamic attribute lookup of a member by its
exact name, as performed by getattr on the enumeration class; yields
none when no member has that name. -/
def categoryFromString (s : String) : Option Category :=
  Category.members.find? (fun c => decide (c.catName = s))

/-- Uppercasing of a string, character by character, the effect of the
Python upper method on the ASCII strings at hand. -/
def pyUpper (s : String) : String := String.mk (s.data.map Char.toUpper)

/-- Lowercasing of a string, character by character, the effect of the
Python lower method on the ASCII strings at hand. -/
def pyLower (s : String) : String := String.mk (s.data.map Char.toLower)

/-- Modelled from the spec: the Product entity (section 3 of spec.md).
The price is a decimal currency amount, modelled as an exact rational;
the wire format carries it exactly (the spec serializes it as a string
precisely so that no precision is lost). -/
structure Product where
  id : Nat
  name : String
  description : String
  price : ℚ
  available : Bool
  category : Category
deriving DecidableEq, Repr

/-- Modelled from the spec: the JSON wire representation of a product,
a mapping whose keys may be absent (section 4.1 of spec.md).  The price
field carries the exact decimal amount that its string form denotes. -/
structure Payload where
  id : Option Nat
  name : Option String
  description : Option String
  price : Option ℚ
  available : Option Bool
  category : Option String
deriving DecidableEq, Repr

/-- Modelled from the spec: serialize produces a mapping with keys id,
name, description, price, available, category; category emitted as its
name string (section 4.1 of spec.md). -/
def Product.serialize (p : Product) : Payload :=
  { id := some p.id
    name := some p.name
    description := some p.description
    price := some p.price
    available := some p.available
    category := some p.category.catName }

/-- Modelled from the spec: deserialize populates the fields of the
receiving record from a mapping; it fails with a validation error when
name is missing, when category is missing or not a recognized
enumeration member, or when price or available cannot be coerced
(section 4.1 of spec.md).  The description is optional (section 3).
The storage-assigned id is never taken from the payload. -/
def Product.deserialize (self : Product) (d : Payload) : Except String Product :=
  match d.name with
  | none => .error "Invalid product: missing name"
  | some nm =>
    match d.category with
    | none => .error "Invalid product: missing category"
    | some cs =>
      match categoryFromString cs with
      | none => .error ("Invalid product: unknown category " ++ cs)
      | some cv =>
        match d.price with
        | none => .error "Invalid product: missing price"
        | some pr =>
          match d.available with
          | none => .error "Invalid product: missing available"
          | some av =>
            .ok { self with
                  name := nm
                  description := d.description.getD self.description
                  price := pr
                  available := av
                  category := cv }

/-- The backing store, one row per product. -/
abbrev Store := List Product

/-- Modelled from the spec: the gateway operation all, returning every
record (section 4.2 of spec.md). -/
def Product.all (s : Store) : List Product := s

/-- Modelled from the spec: the gateway operation find, returning the
record with the given id or a not-found result (section 4.2). -/
def Product.find (pid : Nat) (s : Store) : Option Product :=
  s.find? (fun q => decide (q.id = pid))

/-- Modelled from the spec: exact-match lookup by name, zero or more
records (section 4.2). -/
def Product.find_by_name (n : String) (s : Store) : List Product :=
  s.filter (fun q => decide (q.name = n))

/-- Modelled from the spec: exact-match lookup on the enumeration value
(section 4.2). -/
def Product.find_by_category (c : Category) (s : Store) : List Product :=
  s.filter (fun q => decide (q.category = c))

/-- Modelled from the spec: exact-match lookup on the boolean
availability flag (section 4.2). -/
def Product.find_by_availability (b : Bool) (s : Store) : List Product :=
  s.filter (fun q => decide (q.available = b))

/-- Modelled from the spec: update persists in-place changes to the
record identified by its current id (section 4.1). -/
def Product.update (p : Product) (s : Store) : Store :=
  s.map (fun q => if q.id = p.id then p else q)

/-- Modelled from the spec: delete removes the record if present, a
no-op when absent; rows are identified by the primary-key id
(section 4.1). -/
def Product.delete (p : Product) (s : Store) : Store :=
  s.filter (fun q => decide (q.id ≠ p.id))

/-- A Python exception escaping a handler: either an HTTP abort with a
status code and message, or a raised AttributeError.  Modelled from the
spec: aborts carry their status to the response, and any other raised
error propagates as an unhandled failure of the request (section 7). -/
inductive PyExn where
  | httpError (status : Nat) (message : String)
  | attributeError (attr : String)
deriving DecidableEq, Repr

/-- Modelled from the spec: the HTTP status of a handler outcome.  A
normal return is 200, an abort keeps its status, and an unhandled
exception surfaces as a 500 internal server error (section 7: any such
error propagates as an unhandled failure of the request). -/
def statusOf {α : Type} (r : Except PyExn α) : Nat :=
  match r with
  | .ok _ => 200
  | .error (.httpError n _) => n
  | .error (.attributeError _) => 500

/-- Whether a status code is in the client-error class 4xx. -/
def isClientError (n : Nat) : Bool := 400 ≤ n && n < 500

/-- The query-string arguments of a GET /products request, each either
absent or present with a (possibly empty) string value, exactly what
request.args.get yields per key. -/
structure Args where
  name : Option String
  category : Option String
  available : Option String
deriving DecidableEq, Repr

/-- Python truthiness of an optional string: None and the empty string
are falsy, every other string is truthy. -/
def pyTruthy : Option String → Bool
  | none => false
  | some s => decide (s ≠ "")

/-- Boolean conversion of the available argument, translated from
src/tests/test_routes.py line 316: the lowercased value is tested for
membership in the list of the strings true, yes and 1. -/
def parseBool (v : String) : Bool :=
  decide (pyLower v ∈ ["true", "yes", "1"])

/-- The apostrophe character, used in the not-found message. -/
def apos : String := String.singleton (Char.ofNat 39)

/-- The not-found message of the update and get handlers, translated
from src/tests/test_routes.py lines 246-249: the message interpolates
the requested id between apostrophes. -/
def notFoundMsg (pid : Nat) : String :=
  "Product with id " ++ apos ++ toString pid ++ apos ++ " was not found."

/-- Modelled from the spec: the message of the 415 abort of the
content-type check (section 4.3: create and update require a JSON
content type, 415 otherwise). -/
def ctErrorMsg : String := "Content-Type must be application/json"

/-- The first list_products definition, translated from
src/tests/test_routes.py lines 280-289: it ignores the query arguments
and returns every record serialized. -/
def listProductsV1 (_args : Args) (s : Store) : Except PyExn (List Payload) :=
  .ok ((Product.all s).map Product.serialize)

/-- The second list_products definition, translated from
src/tests/test_routes.py lines 295-324.  Dispatch on the truthiness of
the three query arguments, in the order name, category, available; the
category string is uppercased and looked up by dynamic attribute
access, which raises AttributeError when no member has that name. -/
def listProducts (args : Args) (s : Store) : Except PyExn (List Payload) :=
  if pyTruthy args.name then
    .ok ((Product.find_by_name (args.name.getD "") s).map Product.serialize)
  else if pyTruthy args.category then
    match categoryFromString (pyUpper (args.category.getD "")) with
    | some cv => .ok ((Product.find_by_category cv s).map Product.serialize)
    | none => .error (.attributeError (pyUpper (args.category.getD "")))
  else if pyTruthy args.available then
    .ok ((Product.find_by_availability (parseBool (args.available.getD "")) s).map Product.serialize)
  else
    .ok ((Product.all s).map Product.serialize)

/-- The update handler, translated from src/tests/test_routes.py lines
234-254: the content-type check runs first (its body is modelled from
the spec, section 4.3: 415 unless the content type is application/json),
then the record is looked up (404 with the interpolated message when
absent), then the body is deserialized onto it (a validation failure
surfaces as 400 per section 7 of the spec), the path id is assigned
over whatever deserialization produced, and the record is persisted and
returned serialized. -/
def updateProducts (pid : Nat) (ct : Option String) (body : Payload) (s : Store) :
    Except PyExn (Payload × Store) :=
  if ct = some "application/json" then
    match Product.find pid s with
    | none => .error (.httpError 404 (notFoundMsg pid))
    | some product =>
      match product.deserialize body with
      | .error msg => .error (.httpError 400 msg)
      | .ok p1 =>
        let p2 : Product := { p1 with id := pid }
        .ok (p2.serialize, Product.update p2 s)
  else
    .error (.httpError 415 ctErrorMsg)

/-- The delete handler, translated from src/tests/test_routes.py lines
261-274: look the record up, delete it when found, and in every case
return an empty body with status 204. -/
def deleteProducts (pid : Nat) (s : Store) : String × Nat × Store :=
  match Product.find pid s with
  | some product => ("", 204, product.delete s)
  | none => ("", 204, s)

/-- Modelled from the spec: the single-product GET handler (section
4.3 of spec.md; this handler is not among the files under src, only its
tests are): 200 with the serialized product when found, else 404 with
the message naming the missing id, the same message the update handler
uses and the test test_get_product_not_found asserts. -/
def getProducts (pid : Nat) (s : Store) : Except PyExn Payload :=
  match Product.find pid s with
  | some p => .ok p.serialize
  | none => .error (.httpError 404 (notFoundMsg pid))

/-- The sequential registration of the two list_products view
functions of src/tests/test_routes.py (lines 280-289 and 295-324), in
source order. -/
def routeTable : List (String × (Args → Store → Except PyExn (List Payload))) :=
  [("list_products", listProductsV1), ("list_products", listProducts)]

/-- Modelled from the spec: the effect of defining and registering two
view functions under the same endpoint name in sequence — a later
binding silently replaces an earlier one, as Python name rebinding does
(section 9 of spec.md, open question). -/
def effectiveView (endpoint : String) :
    Option (Args → Store → Except PyExn (List Payload)) :=
  routeTable.foldl (fun acc e => if e.1 = endpoint then some e.2 else acc) none

deriving instance DecidableEq for Except

/-- A sample available FOOD product. -/
def prodFood : Product :=
  { id := 1, name := "Hat", description := "warm", price := 5, available := true,
    category := .FOOD }

/-- A sample unavailable CLOTHS product. -/
def prodCloths : Product :=
  { id := 2, name := "Sock", description := "soft", price := 3, available := false,
    category := .CLOTHS }

/-- A sample store holding the two sample products. -/
def store2 : Store := [prodFood, prodCloths]

/-- A sample store holding a single available product. -/
def availStore : Store := [prodFood]

/-- A payload with every key absent. -/
def emptyPayload : Payload :=
  { id := none, name := none, description := none, price := none,
    available := none, category := none }

/-- A full update body whose id field disagrees with any path id used
in the tests below. -/
def bodyB : Payload :=
  { id := some 99, name := some "Sock", description := some "soft",
    price := some 3, available := some false, category := some "CLOTHS" }

/-- The payload returned by a successful update of product 1 with
bodyB. -/
def outB : Payload :=
  { id := some 1, name := some "Sock", description := some "soft",
    price := some 3, available := some false, category := some "CLOTHS" }

/-- The store produced by a successful update of product 1 with
bodyB. -/
def s2B : Store :=
  [{ id := 1, name := "Sock", description := "soft", price := 3,
     available := false, category := .CLOTHS }]

/-! Helper lemmas shared by the claim theorems. -/

/-- Looking an enumeration member up by its own name succeeds. -/
theorem categoryFromString_catName (c : Category) :
    categoryFromString c.catName = some c := by
  cases c <;> decide

/-- When no record carries the id, filtering the id out changes
nothing. -/
theorem filter_ne_of_find_none (pid : Nat) (s : Store)
    (h : Product.find pid s = none) :
    s.filter (fun q => decide (q.id ≠ pid)) = s := by
  unfold Product.find at h
  rw [List.find?_eq_none] at h
  apply List.filter_eq_self.mpr
  intro a ha
  have := h a ha
  simpa using this

/-- Truthiness of an absent argument is false. -/
theorem pyTruthy_none : pyTruthy none = false := rfl

/-- Truthiness of an empty argument value is false. -/
theorem pyTruthy_empty : pyTruthy (some "") = false := by decide

/-- C2: for a GET /products request whose category value is not a
recognized enumeration member name under case-insensitive matching, the
handler raises an unhandled AttributeError and the request surfaces as
a 500 internal server error, not as a 4xx client error — contradicting
the claim that such a request fails as a client error.  Evaluated at
the failing input category equal to the string toys. -/
theorem C2_unknown_category_is_unhandled_500 :
    listProducts ⟨none, some "toys", none⟩ store2
      = .error (.attributeError "TOYS") ∧
    statusOf (listProducts ⟨none, some "toys", none⟩ store2) = 500 ∧
    isClientError (statusOf (listProducts ⟨none, some "toys", none⟩ store2))
      = false := by
  refine ⟨by decide, by decide, by decide⟩

/-- C4: the second list_products definition silently shadows the first
under the shared endpoint name, so the effective view of GET /products
is the filtering one; at a request filtering by name the two
definitions moreover differ, the first returning every record and the
effective second returning only the matching one. -/
theorem C4_second_list_products_shadows_first :
    effectiveView "list_products" = some listProducts ∧
    listProductsV1 ⟨some "Hat", none, none⟩ store2
      = .ok [prodFood.serialize, prodCloths.serialize] ∧
    listProducts ⟨some "Hat", none, none⟩ store2
      = .ok [prodFood.serialize] := by
  refine ⟨rfl, by decide, by decide⟩

/-- C7: for every id, present or not, the delete handler returns an
empty body with status 204 and the store keeps exactly the records with
a different id: the record is removed when it exists and nothing
changes when it does not, and no error is ever returned. -/
theorem C7_delete_always_204_idempotent (pid : Nat) (s : Store) :
    deleteProducts pid s = ("", 204, s.filter (fun q => decide (q.id ≠ pid))) := by
  cases hf : Product.find pid s with
  | none =>
    have hfilter := filter_ne_of_find_none pid s hf
    simp [deleteProducts, hf]
    simpa using hfilter.symm
  | some q =>
    have hf' : s.find? (fun q => decide (q.id = pid)) = some q := hf
    have hq : q.id = pid := by simpa using List.find?_some hf'
    simp [deleteProducts, hf, Product.delete, hq]

/-- C8: deserializing the result of serializing a product yields a
product equal to it on every field except the storage-assigned id,
whatever record the deserialization is applied to. -/
theorem C8_serialize_deserialize_roundtrip (p p0 : Product) :
    p0.deserialize p.serialize
      = .ok { p0 with name := p.name, description := p.description,
                      price := p.price, available := p.available,
                      category := p.category } := by
  simp [Product.serialize, Product.deserialize, categoryFromString_catName]

/-- C10: a filter query parameter supplied with an empty-string value
is treated exactly like an absent one — dispatch falls through to the
next filter in precedence order — and in particular a request whose
only parameter is an empty available value returns every record. -/
theorem C10_empty_param_treated_as_absent (nm c a : Option String) (s : Store) :
    listProducts ⟨some "", c, a⟩ s = listProducts ⟨none, c, a⟩ s ∧
    listProducts ⟨nm, some "", a⟩ s = listProducts ⟨nm, none, a⟩ s ∧
    listProducts ⟨nm, c, some ""⟩ s = listProducts ⟨nm, c, none⟩ s ∧
    listProducts ⟨none, none, some ""⟩ s = .ok ((Product.all s).map Product.serialize) := by
  refine ⟨rfl, ?_, ?_, rfl⟩
  · cases hn : pyTruthy nm
    · simp [listProducts, hn, pyTruthy_empty, pyTruthy_none]
    · simp [listProducts, hn]
  · cases hn : pyTruthy nm
    · cases hc : pyTruthy c
      · simp [listProducts, hn, hc, pyTruthy_empty, pyTruthy_none]
      · simp [listProducts, hn, hc]
    · simp [listProducts, hn]

/-- C1 counterexample: the claim as stated is false — with a name
parameter present in the query string but carrying the empty value and
a category parameter set, the category filter is honored rather than
ignored, so the result differs from the same request without the
category parameter.  The store holds one FOOD and one CLOTHS record;
with category FOOD only the FOOD record is returned, without it both
are. -/
theorem C1_present_empty_name_does_not_mask_category :
    listProducts ⟨some "", some "FOOD", none⟩ store2
      ≠ listProducts ⟨some "", none, none⟩ store2 := by
  decide

/-- C1 amended: at most one filter parameter is honored, in the
precedence order name, then category, then available, where a parameter
supplied with an empty value counts as absent: a non-empty name makes
the handler return exactly the name lookup whatever the other two
arguments are; with the name absent or empty, a non-empty category
makes the result independent of the available argument; with name and
category absent or empty, a non-empty available makes the handler
return exactly the availability lookup; and when none of the three is
supplied with a non-empty value the handler returns every record. -/
theorem C1_filter_precedence (nm c a : Option String) (s : Store) :
    (pyTruthy nm = true →
      listProducts ⟨nm, c, a⟩ s
        = .ok ((Product.find_by_name (nm.getD "") s).map Product.serialize)) ∧
    (pyTruthy nm = false → pyTruthy c = true →
      listProducts ⟨nm, c, a⟩ s = listProducts ⟨none, c, none⟩ s) ∧
    (pyTruthy nm = false → pyTruthy c = false → pyTruthy a = true →
      listProducts ⟨nm, c, a⟩ s
        = .ok ((Product.find_by_availability (parseBool (a.getD "")) s).map
            Product.serialize)) ∧
    (pyTruthy nm = false → pyTruthy c = false → pyTruthy a = false →
      listProducts ⟨nm, c, a⟩ s = .ok ((Product.all s).map Product.serialize)) := by
  refine ⟨?_, ?_, ?_, ?_⟩
  · intro h1
    simp [listProducts, h1]
  · intro h1 h2
    simp [listProducts, h1, h2, pyTruthy_none]
  · intro h1 h2 h3
    simp [listProducts, h1, h2, h3]
  · intro h1 h2 h3
    simp [listProducts, h1, h2, h3]

/-- C1 witness: at a concrete request carrying all three parameters
non-empty, the name filter alone is honored. -/
theorem C1_filter_precedence_witness :
    pyTruthy (some "Hat") = true ∧
    listProducts ⟨some "Hat", some "FOOD", some "true"⟩ store2
      = .ok [prodFood.serialize] := by
  refine ⟨by decide, ?_⟩
  exact ((C1_filter_precedence (some "Hat") (some "FOOD") (some "true")
    store2).1 (by decide)).trans (by decide)

/-- C3 counterexample: the claim as stated is false — a request
carrying the available parameter with the empty value, over a store
holding a single available record, returns that record, whereas the
claim maps the empty supplied value to false and demands exactly the
records whose available flag is false, that is, none. -/
theorem C3_empty_available_not_filtered_false :
    listProducts ⟨none, none, some ""⟩ availStore
      ≠ .ok ((availStore.filter
          (fun p => decide (p.available = false))).map Product.serialize) := by
  decide

/-- C3 amended: for every GET /products request carrying a non-empty
available value and no name or category parameter, the value is
converted to a boolean accepting exactly the strings true, yes and 1
case-insensitively as true and any other non-empty value as false, and
the response holds exactly the records whose available flag equals that
boolean; an empty available value is instead treated as absent. -/
theorem C3_available_boolean_filter (v : String) (hv : v ≠ "") (s : Store) :
    listProducts ⟨none, none, some v⟩ s
      = .ok ((s.filter (fun p => decide (p.available = parseBool v))).map
          Product.serialize) ∧
    (parseBool v = true ↔ pyLower v ∈ ["true", "yes", "1"]) := by
  constructor
  · simp [listProducts, pyTruthy, hv, Product.find_by_availability]
  · simp [parseBool]

/-- C3 witness: a concrete request with the available value YES returns
exactly the available records. -/
theorem C3_available_boolean_filter_witness :
    parseBool "YES" = true ∧
    listProducts ⟨none, none, some "YES"⟩ availStore
      = .ok [prodFood.serialize] := by
  refine ⟨by decide, ?_⟩
  exact ((C3_available_boolean_filter "YES" (by decide) availStore).1).trans
    (by decide)

/-- C5: for every successful PUT /products request the path id is
authoritative — the returned payload carries the path id, the persisted
record carries the path id and serializes to the returned payload, and
replacing the id field of the request body by any value leaves the
outcome unchanged. -/
theorem C5_update_path_id_authoritative (pid : Nat) (ct : Option String)
    (body : Payload) (s : Store) (out : Payload) (s2 : Store)
    (h : updateProducts pid ct body s = .ok (out, s2)) :
    out.id = some pid ∧
    (∃ r, r ∈ s2 ∧ r.id = pid ∧ r.serialize = out) ∧
    (∀ j, updateProducts pid ct { body with id := j } s = .ok (out, s2)) := by
  by_cases hct : ct = some "application/json"
  · rw [updateProducts, if_pos hct] at h
    cases hf : Product.find pid s with
    | none => rw [hf] at h; exact absurd h (by simp)
    | some q =>
      rw [hf] at h
      dsimp only at h
      cases hd : q.deserialize body with
      | error m => rw [hd] at h; exact absurd h (by simp)
      | ok p1 =>
        rw [hd] at h
        dsimp only at h
        simp only [Except.ok.injEq, Prod.mk.injEq] at h
        obtain ⟨hout, hs2⟩ := h
        have hq' : s.find? (fun x => decide (x.id = pid)) = some q := hf
        have hqmem : q ∈ s := List.mem_of_find?_eq_some hq'
        have hqid : q.id = pid := by simpa using List.find?_some hq'
        refine ⟨?_, ⟨{ p1 with id := pid }, ?_, rfl, ?_⟩, ?_⟩
        · rw [← hout]; rfl
        · rw [← hs2]
          unfold Product.update
          exact List.mem_map.mpr ⟨q, hqmem, by simp [hqid]⟩
        · exact hout
        · intro j
          rw [updateProducts, if_pos hct, hf]
          dsimp only
          have hij : Product.deserialize q { body with id := j }
              = Product.deserialize q body := rfl
          rw [hij, hd]
          dsimp only
          rw [← hout, ← hs2]
  · rw [updateProducts, if_neg hct] at h
    exact absurd h (by simp)

/-- C5 witness: updating product 1 with a body whose id field says 99
succeeds and returns the payload with id 1. -/
theorem C5_update_path_id_authoritative_witness :
    updateProducts 1 (some "application/json") bodyB [prodFood]
      = .ok (outB, s2B) ∧ outB.id = some 1 := by
  refine ⟨by decide, ?_⟩
  exact (C5_update_path_id_authoritative 1 (some "application/json") bodyB
    [prodFood] outB s2B (by decide)).1

/-- C6: for every id not present in the store, the single-product GET
handler and the update handler called with a JSON content type both
return a 404 whose message interpolates the requested id between
apostrophes in the sentence, Product with id ... was not found. -/
theorem C6_not_found_404_message (pid : Nat) (s : Store) (body : Payload)
    (h : Product.find pid s = none) :
    getProducts pid s = .error (.httpError 404 (notFoundMsg pid)) ∧
    updateProducts pid (some "application/json") body s
      = .error (.httpError 404 (notFoundMsg pid)) ∧
    notFoundMsg pid
      = "Product with id " ++ apos ++ toString pid ++ apos ++ " was not found." := by
  refine ⟨?_, ?_, rfl⟩
  · simp [getProducts, h]
  · simp [updateProducts, h]

/-- C6 witness: fetching id 0 from the empty store yields the 404 with
the message naming id 0, as the test suite asserts. -/
theorem C6_not_found_404_message_witness :
    Product.find 0 ([] : Store) = none ∧
    getProducts 0 [] = .error (.httpError 404 (notFoundMsg 0)) := by
  refine ⟨rfl, ?_⟩
  exact (C6_not_found_404_message 0 [] emptyPayload rfl).1

/-- C9: the update handler checks the content type before looking the
record up, so a request whose content type is missing or not JSON gets
415, whatever the store holds — in particular even when the id does not
exist, 415 takes precedence over 404. -/
theorem C9_content_type_checked_before_404 (pid : Nat) (ct : Option String)
    (body : Payload) (s : Store) (h : ct ≠ some "application/json") :
    updateProducts pid ct body s = .error (.httpError 415 ctErrorMsg) := by
  rw [updateProducts, if_neg h]

/-- C9 witness: a request with no content type for an id absent from
the empty store yields 415, not 404. -/
theorem C9_content_type_checked_before_404_witness :
    Product.find 7 ([] : Store) = none ∧
    updateProducts 7 none emptyPayload []
      = .error (.httpError 415 ctErrorMsg) := by
  refine ⟨rfl, ?_⟩
  exact C9_content_type_checked_before_404 7 none emptyPayload [] (by decide)
